import Mathlib

/-!
Verification development for the Kismet overview daemon (`src/server.py`).

The Python source is shallowly embedded: the loosely typed JSON device
dictionaries become structures of `Option` fields, exceptions become
`Except`/`Option` results, and the global `all_devices` dictionary becomes an
association list keyed by MAC address.  Environment-dependent library calls
(`datetime.fromtimestamp` local-time formatting, Python float rendering) are
abstracted as total functions of their inputs; each such abstraction is noted
at its definition.
-/

set_option autoImplicit false

/-! ## Python string primitives -/

/-- Models Python `str.lower()` on a single character, restricted to ASCII
(the device fields handled by the server are ASCII). -/
def pyLowerChar (c : Char) : Char :=
  if 0x41 ≤ c.toNat ∧ c.toNat ≤ 0x5a then Char.ofNat (c.toNat + 32) else c

/-- Models Python `str.lower()` (ASCII restriction, see `pyLowerChar`). -/
def lowerStr (s : String) : String := String.mk (s.toList.map pyLowerChar)

/-- `leadsWith needle hay` is true when `needle` is an initial segment of
`hay`. -/
def leadsWith : List Char → List Char → Bool
  | [], _ => true
  | _ :: _, [] => false
  | a :: as, b :: bs => a = b && leadsWith as bs

/-- `containsSeq needle hay` is true when `needle` occurs contiguously inside
`hay`. -/
def containsSeq (needle : List Char) : List Char → Bool
  | [] => needle.isEmpty
  | c :: rest => leadsWith needle (c :: rest) || containsSeq needle rest

/-- Models the Python `needle in hay` substring test on strings. -/
def pyIn (needle hay : String) : Bool := containsSeq needle.toList hay.toList

/-- Models Python string comparison `a < b`: lexicographic by code point,
a strict prefix is smaller. -/
def lexLt : List Char → List Char → Bool
  | [], [] => false
  | [], _ :: _ => true
  | _ :: _, [] => false
  | a :: as, b :: bs =>
    if a.toNat < b.toNat then true
    else if b.toNat < a.toNat then false
    else lexLt as bs

/-- The larger of two strings in Python string order. -/
def maxStr (a b : String) : String := if lexLt a.toList b.toList then b else a

/-- Models `field.replace(Char.ofNat 34, two quote chars)` i.e. the CSV
quote-doubling `field.replace with doubled quotation marks` of the handler. -/
def escQuotes : List Char → List Char
  | [] => []
  | c :: rest => if c = '"' then '"' :: '"' :: escQuotes rest else c :: escQuotes rest

/-- Models `str(comment).replace(comma, semicolon)` of the CSV renderer:
a single-character replace is a character-wise map. -/
def commaToSemi (s : String) : String :=
  String.mk (s.toList.map (fun c => if c = ',' then ';' else c))

/-- Models Python `json_file.replace(".json", "")`: every non-overlapping
occurrence of `.json` is removed, scanning left to right. -/
def removeJson : List Char → List Char
  | '.' :: 'j' :: 's' :: 'o' :: 'n' :: rest => removeJson rest
  | c :: rest => c :: removeJson rest
  | [] => []

/-- String form of `removeJson`. -/
def pyRemoveJson (s : String) : String := String.mk (removeJson s.toList)

/-- The transformation claimed by the spec for `sources` entries: remove one
trailing `.json` suffix (and only the suffix). -/
def stripJsonSuffix (s : String) : String :=
  if leadsWith ['n', 'o', 's', 'j', '.'] s.toList.reverse then
    String.mk (s.toList.take (s.toList.length - 5))
  else s

/-! ## Data model -/

/-- The canonical device record (`device_info` dictionaries in the source).
Latitude, longitude and packet counts are modelled as integers; the claims
under verification do not depend on floating-point behaviour. -/
structure DeviceInfo where
  type : String
  mac : String
  vendor : String
  name : String
  last_seen : String
  first_seen : String
  channel : String
  packets : Int
  longitude : Int
  latitude : Int
  comment : String
  sources : List String
  deriving Repr, DecidableEq

/-- One entry of a `dot11` SSID map, with each key optional as in the JSON. -/
structure SsidEntry where
  probedssid : Option String
  advertisedssid : Option String
  wps_state : Option Int
  wps_manuf : Option String
  wps_model_name : Option String
  deriving Repr, DecidableEq

/-- The `dot11.device` subtree of a device dictionary. -/
structure Dot11Device where
  advertised_ssid_map : Option (List SsidEntry)
  responded_ssid_map : Option (List SsidEntry)
  probed_ssid_map : Option (List SsidEntry)
  associated_client_map : Option (List String)
  deriving Repr, DecidableEq

/-- One device dictionary of a converted JSON file.  Every canonical key is
optional, mirroring `device.get(...)` access in the source.  `geopoint`
collapses the nested
`location -> avg_loc -> geopoint` dictionary chain (each level is read with
`.get(..., default dict)`), holding the `[longitude, latitude]` array when the
chain is present. -/
structure JsonDevice where
  base_type : Option String
  macaddr : Option String
  manuf : Option String
  commonname : Option String
  base_name : Option String
  last_time : Option Int
  first_time : Option Int
  channel : Option String
  packets_total : Option Int
  crypt : Option String
  frequency : Option Int
  geopoint : Option (List Int)
  dot11 : Option Dot11Device
  deriving Repr, DecidableEq

/-- Models `datetime.fromtimestamp(t).strftime` with the fixed format of the
source.  The rendering depends on the local timezone, so it is abstracted as
an injective total function of the epoch value; the claims depend only on
totality (a zero epoch still renders). -/
def fmtTime (t : Int) : String := "ts " ++ toString t

/-- Models `str(f / 1000)` (Python true division yielding a float).  The
decimal rendering of the float is abstracted as an injective total function of
the integer frequency; the claims depend only on totality. -/
def strFreqDiv1000 (f : Int) : String := "kHz/1000 " ++ toString f

/-! ## Record Parser (`parse_ssid_maps`, `parse_json_file`) -/

/-- The WPS manufacturer/model suffix appended to a WPS annotation when the
corresponding keys are present in the SSID map entry. -/
def wpsTail (x : SsidEntry) : String :=
  (match x.wps_manuf with
    | some m => " manuf: " ++ m
    | none => "") ++
  (match x.wps_model_name with
    | some m => " model: " ++ m
    | none => "")

/-- The tail of the loop body of `parse_ssid_maps` for one SSID map entry:
given the comment so far and the WPS state string already accumulated in
`wps`, append manufacturer/model and, when `wps` is nonempty, append the
` WPS: ` annotation to the comment. -/
def wpsFinish (c wps0 : String) (x : SsidEntry) : String :=
  let wps := wps0 ++ wpsTail x
  if wps ≠ "" then c ++ " WPS: " ++ wps else c

/-- One iteration of the `for x in device[...]` loop of `parse_ssid_maps`.
The accumulator is the pair (comment built so far, `ssids` accumulator).
`cn` is `device["kismet.device.base.commonname"]`: the source indexes it
directly, so its absence raises `KeyError`, modelled as `Except.error`.
`wps_state == 0` executes `continue`, skipping the rest of the loop body. -/
def ssidEntryStep (cn : Option String) (acc : String × String) (x : SsidEntry) :
    Except Unit (String × String) := do
  let (c, ssids) := acc
  let c := match x.probedssid with
    | some s => if s ≠ "" then c ++ " Probd: " ++ s else c
    | none => c
  let ssids ←
    match x.advertisedssid with
    | some s =>
      match cn with
      | none => Except.error ()
      | some n =>
        pure (if pyIn s ssids = false ∧ s ≠ n then ssids ++ " " ++ s else ssids)
    | none => pure ssids
  match x.wps_state with
  | some st =>
    if st = 1 ∨ st = 2 then
      pure (wpsFinish c "enabled" x, ssids)
    else if st = 0 then
      pure (c, ssids)
    else
      pure (wpsFinish c ("unkn (" ++ toString st ++ ")") x, ssids)
  | none => pure (wpsFinish c "" x, ssids)

/-- Models `parse_ssid_maps(device, device_info, field)`: when the field is
present in `dot11.device`, fold the loop body over its entries and append the
accumulated ` SSID: ` list when nonempty.  Returns the new comment. -/
def parse_ssid_maps (cn : Option String) (comment : String)
    (fieldMap : Option (List SsidEntry)) : Except Unit String := do
  match fieldMap with
  | none => pure comment
  | some xs =>
    let (c, ssids) ← xs.foldlM (ssidEntryStep cn) (comment, "")
    pure (if ssids ≠ "" then c ++ " SSID: " ++ ssids else c)

/-- The body of the `for device in data` loop of `parse_json_file`, producing
one `DeviceInfo`.  A missing `kismet.device.base.frequency` key makes
`device.get(...)` return `None`, and `None / 1000` raises `TypeError`,
modelled as `Except.error`. -/
def parseDevice (source_file : String) (d : JsonDevice) : Except Unit DeviceInfo := do
  let location := d.geopoint.getD [0, 0]
  let longitude := location.getD 0 0
  let latitude := location.getD 1 0
  let freq ←
    match d.frequency with
    | none => Except.error ()
    | some f => pure f
  let info : DeviceInfo :=
    { type := d.base_type.getD "Unknown"
      mac := d.macaddr.getD "Unknown"
      vendor := d.manuf.getD "Unknown"
      name := d.commonname.getD (d.base_name.getD "Unknown")
      last_seen := fmtTime (d.last_time.getD 0)
      first_seen := fmtTime (d.first_time.getD 0)
      channel := d.channel.getD "Unknown"
      packets := d.packets_total.getD 0
      longitude := longitude
      latitude := latitude
      comment := d.crypt.getD "" ++ " freq: " ++ strFreqDiv1000 freq
      sources := [source_file] }
  match d.dot11 with
  | none => pure info
  | some dd => do
    let c ← parse_ssid_maps d.commonname info.comment dd.advertised_ssid_map
    let c ← parse_ssid_maps d.commonname c dd.responded_ssid_map
    let c ← parse_ssid_maps d.commonname c dd.probed_ssid_map
    let c := match dd.associated_client_map with
      | some clients => c ++ " Clt: " ++ String.intercalate " , " clients
      | none => c
    pure { info with comment := c }

/-- Models `parse_json_file(json_file, source_file)` on already-decoded JSON
data: the whole device loop runs inside one `try`, so any exception discards
the records accumulated so far and the function returns the empty list. -/
def parse_json_file (source_file : String) (data : List JsonDevice) : List DeviceInfo :=
  match data.mapM (parseDevice source_file) with
  | Except.ok ds => ds
  | Except.error _ => []

/-! ## Merge Store (`update_merged_devices`, lines 501-514) -/

/-- The global `all_devices` dictionary: MAC address to device record. -/
def Store := List (String × DeviceInfo)

/-- Python dictionary lookup `all_devices[mac]` / `mac in all_devices`. -/
def dictLookup (s : List (String × DeviceInfo)) (k : String) : Option DeviceInfo :=
  match s with
  | [] => none
  | (k2, v) :: rest => if k2 = k then some v else dictLookup rest k

/-- Python dictionary assignment `all_devices[mac] = device` (in-place update
of an existing key, insertion otherwise). -/
def dictSet (s : List (String × DeviceInfo)) (k : String) (v : DeviceInfo) :
    List (String × DeviceInfo) :=
  match s with
  | [] => [(k, v)]
  | (k2, v2) :: rest => if k2 = k then (k, v) :: rest else (k2, v2) :: dictSet rest k v

/-- The per-record merge step of `update_merged_devices` (the variant at lines
501-514 that tracks sources).  When the MAC is present and the incoming
`last_seen` string compares strictly greater, the source first appends
`filename` to the stored `sources` list, but `dict.update(device)` then
overwrites every key — including `sources` — with the incoming record's
values, and the final `list(set(...))` dedups the incoming list only.  The
Python `set` iteration order is unspecified; the dedup is modelled by
`List.dedup`. -/
def mergeDevice (filename : String) (store : List (String × DeviceInfo))
    (device : DeviceInfo) : List (String × DeviceInfo) :=
  match dictLookup store device.mac with
  | some stored =>
    if lexLt stored.last_seen.toList device.last_seen.toList then
      let _withFile :=
        if filename ∈ stored.sources then stored.sources
        else stored.sources ++ [filename]
      let updated := device
      let final : DeviceInfo := { updated with sources := updated.sources.dedup }
      dictSet store device.mac final
    else store
  | none => dictSet store device.mac device

/-- Merging the full record list of one file, in order. -/
def mergeDevices (filename : String) (store : List (String × DeviceInfo))
    (devices : List DeviceInfo) : List (String × DeviceInfo) :=
  devices.foldl (mergeDevice filename) store

/-! ## Query Engine (`DeviceManager.filter_devices`) -/

/-- The directory of converted JSON files: a selected file name maps to its
decoded device entries, or to `none` when opening or decoding the file raises
(the per-file `except` skips such a file). -/
def FileSystem := String → Option (List JsonDevice)

/-- The record built inline in `filter_devices` for one entry of one selected
JSON file.  Unlike `parse_json_file` it reads the frequency with default `0`,
does not enrich the comment from `dot11`, and tags `sources` with
`json_file.replace(".json", "")`. -/
def deviceFromFile (json_file : String) (d : JsonDevice) : DeviceInfo :=
  let location := d.geopoint.getD [0, 0]
  { type := d.base_type.getD "Unknown"
    mac := d.macaddr.getD "Unknown"
    vendor := d.manuf.getD "Unknown"
    name := d.commonname.getD (d.base_name.getD "Unknown")
    last_seen := fmtTime (d.last_time.getD 0)
    first_seen := fmtTime (d.first_time.getD 0)
    channel := d.channel.getD "Unknown"
    packets := d.packets_total.getD 0
    longitude := location.getD 0 0
    latitude := location.getD 1 0
    comment := d.crypt.getD "" ++ " freq: " ++ strFreqDiv1000 (d.frequency.getD 0)
    sources := [pyRemoveJson json_file] }

/-- The file-loading loop of `filter_devices`: records of each selected file
are appended in order; a file that fails to open or decode is skipped. -/
def loadSelected (fs : FileSystem) : List String → List DeviceInfo
  | [] => []
  | f :: rest =>
    (match fs f with
      | none => []
      | some entries => entries.map (deviceFromFile f)) ++ loadSelected fs rest

/-- The `searchable_text` f-string of `filter_devices`: the space-joined
fields, lower-cased as one string. -/
def searchableText (d : DeviceInfo) : String :=
  lowerStr (d.type ++ " " ++ d.mac ++ " " ++ d.vendor ++ " " ++ d.name ++ " " ++
    d.channel ++ " " ++ d.comment)

/-- The space-joined lower-cased concatenation named by the spec: each of
type, identifier, vendor, name, channel and comment lower-cased, joined by
single spaces. -/
def claimAllText (d : DeviceInfo) : String :=
  lowerStr d.type ++ " " ++ lowerStr d.mac ++ " " ++ lowerStr d.vendor ++ " " ++
    lowerStr d.name ++ " " ++ lowerStr d.channel ++ " " ++ lowerStr d.comment

/-- Models `str(device.get(search_field, ""))` on a `device_info` dictionary:
the string form of the named field, `""` for a key the dictionary does not
have.  `str()` of the Python list under `sources` is abstracted by quoting
each element with the repr quote character. -/
def pyFieldStr (d : DeviceInfo) (key : String) : String :=
  if key = "type" then d.type
  else if key = "mac" then d.mac
  else if key = "vendor" then d.vendor
  else if key = "name" then d.name
  else if key = "last_seen" then d.last_seen
  else if key = "first_seen" then d.first_seen
  else if key = "channel" then d.channel
  else if key = "packets" then toString d.packets
  else if key = "longitude" then toString d.longitude
  else if key = "latitude" then toString d.latitude
  else if key = "comment" then d.comment
  else if key = "sources" then
    "[" ++ String.intercalate ", "
      (d.sources.map (fun s =>
        String.singleton (Char.ofNat 39) ++ s ++ String.singleton (Char.ofNat 39))) ++ "]"
  else ""

/-- The search-filter step of `filter_devices`: a falsy (empty) query skips
the filter; otherwise the lower-cased query must occur in the searchable text
(field `all`) or in the named field's lower-cased string form. -/
def applySearch (search_query search_field : String) (devices : List DeviceInfo) :
    List DeviceInfo :=
  if search_query = "" then devices
  else
    devices.filter (fun d =>
      if search_field = "all" then pyIn (lowerStr search_query) (searchableText d)
      else pyIn (lowerStr search_query) (lowerStr (pyFieldStr d search_field)))

/-- Strict comparison used for the sort of `filter_devices`, per column:
timestamp columns compare as parsed timestamps (for the fixed format this is
the string order), `packets` numerically, the rest as lower-cased strings. -/
def sortKeyLt (col : Fin 9) (a b : DeviceInfo) : Bool :=
  match (col : Nat) with
  | 0 => lexLt (lowerStr a.type).toList (lowerStr b.type).toList
  | 1 => lexLt (lowerStr a.mac).toList (lowerStr b.mac).toList
  | 2 => lexLt (lowerStr a.vendor).toList (lowerStr b.vendor).toList
  | 3 => lexLt (lowerStr a.name).toList (lowerStr b.name).toList
  | 4 => lexLt a.first_seen.toList b.first_seen.toList
  | 5 => lexLt a.last_seen.toList b.last_seen.toList
  | 6 => lexLt (lowerStr a.channel).toList (lowerStr b.channel).toList
  | 7 => decide (a.packets < b.packets)
  | _ => lexLt (lowerStr a.comment).toList (lowerStr b.comment).toList

/-- Stable insertion into a sorted list: `x` goes before the first element it
is not strictly greater than. -/
def insSorted (lt : DeviceInfo → DeviceInfo → Bool) (x : DeviceInfo) :
    List DeviceInfo → List DeviceInfo
  | [] => [x]
  | y :: ys => if lt y x then y :: insSorted lt x ys else x :: y :: ys

/-- Stable sort, models Python `list.sort(key=..., reverse=...)`. -/
def stableSort (lt : DeviceInfo → DeviceInfo → Bool) : List DeviceInfo → List DeviceInfo
  | [] => []
  | x :: xs => insSorted lt x (stableSort lt xs)

/-- The sort step of `filter_devices`; `reverse=True` flips the strict
comparison while keeping equal elements in encounter order. -/
def sortDevices (col : Fin 9) (asc : Bool) (ds : List DeviceInfo) : List DeviceInfo :=
  stableSort (fun a b => if asc then sortKeyLt col a b else sortKeyLt col b a) ds

/-- Models `DeviceManager.filter_devices`: an empty (falsy) selection returns
the empty list immediately; otherwise records of the selected files are
loaded, search-filtered and sorted. -/
def filter_devices (fs : FileSystem) (search_query search_field : String)
    (sort_column : Fin 9) (sort_asc : Bool) (selected_files : List String) :
    List DeviceInfo :=
  if selected_files = [] then []
  else sortDevices sort_column sort_asc
    (applySearch search_query search_field (loadSelected fs selected_files))

/-! ## HTTP handler (`CustomHandler.do_GET`, `/devices`) -/

/-- Value of a run of decimal digits. -/
def natOfDigits (cs : List Char) : Nat :=
  cs.foldl (fun a c => a * 10 + (c.toNat - 48)) 0

/-- Strip leading and trailing spaces (Python `int` also strips other
whitespace characters and allows digit-group underscores; those inputs are
not exercised by the claims). -/
def stripSpaces (cs : List Char) : List Char :=
  ((cs.dropWhile (· = ' ')).reverse.dropWhile (· = ' ')).reverse

/-- Models Python `int(s)`: optional sign followed by a nonempty digit run;
any other input raises `ValueError`, modelled as `none`. -/
def pyInt (s : String) : Option Int :=
  match stripSpaces s.toList with
  | '-' :: ds =>
    if ds ≠ [] ∧ ds.all Char.isDigit then some (-(natOfDigits ds : Int)) else none
  | '+' :: ds =>
    if ds ≠ [] ∧ ds.all Char.isDigit then some (natOfDigits ds : Int) else none
  | ds =>
    if ds ≠ [] ∧ ds.all Char.isDigit then some (natOfDigits ds : Int) else none

/-- Drop leading spaces of a JSON text. -/
def skipSpaces : List Char → List Char
  | ' ' :: rest => skipSpaces rest
  | cs => cs

/-- Scan a JSON string body up to the closing quote. -/
def jsonStringRest (acc : List Char) : List Char → Option (String × List Char)
  | [] => none
  | '"' :: rest => some (String.mk acc.reverse, rest)
  | c :: rest => jsonStringRest (c :: acc) rest

/-- Items of a JSON array of strings, after the opening bracket.  The fuel is
the remaining input length plus one, enough for every well-formed input. -/
def jsonArrayItems : Nat → List Char → Option (List String)
  | 0, _ => none
  | fuel + 1, cs =>
    match skipSpaces cs with
    | '"' :: rest =>
      (match jsonStringRest [] rest with
        | none => none
        | some (s, rest2) =>
          match skipSpaces rest2 with
          | ',' :: rest3 =>
            (match jsonArrayItems fuel rest3 with
              | none => none
              | some ss => some (s :: ss))
          | ']' :: rest3 => if skipSpaces rest3 = [] then some [s] else none
          | _ => none)
    | _ => none

/-- Models `json.loads` on the `files` query parameter, restricted to the
JSON arrays of strings the page sends (string escape sequences and non-array
payloads are not modelled); any other input is a decode failure (`none`, the
`json.JSONDecodeError` of the source). -/
def jsonLoadsList (s : String) : Option (List String) :=
  match skipSpaces s.toList with
  | '[' :: rest =>
    (match skipSpaces rest with
      | ']' :: rest2 => if skipSpaces rest2 = [] then some [] else none
      | cs => jsonArrayItems (cs.length + 1) cs)
  | _ => none

/-- Models `int(query.get("page", ["1"])[0])`: an absent parameter defaults
to the string `"1"`; `none` models the uncaught `ValueError` of `int`. -/
def parsePageParam (q : Option String) : Option Int := pyInt (q.getD "1")

/-- Models the `files` parameter handling: absent defaults to `"[]"`, and a
decode failure is caught and replaced by the empty selection. -/
def parseFilesParam (q : Option String) : List String :=
  match jsonLoadsList (q.getD "[]") with
  | some fs => fs
  | none => []

/-- `PAGE_SIZE` of the source. -/
def PAGE_SIZE : Nat := 100

/-- Resolve one Python slice bound against a list of length `n`: negative
bounds count from the end and clamp at `0`, positive bounds clamp at `n`. -/
def pySliceResolve (n : Nat) (i : Int) : Nat :=
  if i < 0 then (max 0 ((n : Int) + i)).toNat else (min i (n : Int)).toNat

/-- Models the Python slice `l[start:stop]` (step 1). -/
def pySlice (l : List DeviceInfo) (start stop : Int) : List DeviceInfo :=
  let s := pySliceResolve l.length start
  let e := pySliceResolve l.length stop
  (l.drop s).take (e - s)

/-- The pagination slice of the JSON branch:
`filtered_devices[(page-1)*PAGE_SIZE : (page-1)*PAGE_SIZE + PAGE_SIZE]`. -/
def pageSlice (l : List DeviceInfo) (page : Int) : List DeviceInfo :=
  pySlice l ((page - 1) * (PAGE_SIZE : Int)) ((page - 1) * (PAGE_SIZE : Int) + (PAGE_SIZE : Int))

/-- The fixed CSV header row. -/
def csvHeader : String :=
  String.intercalate "," ["Type", "MAC Address", "Vendor", "Name", "First Seen",
    "Last Seen", "Channel", "Packets", "Comment", "Latitude", "Longitude", "Sources"]

/-- The CSV `row` list for one device, in the fixed column order, with commas
of the comment replaced by semicolons and sources joined by semicolons. -/
def csvColumns (d : DeviceInfo) : List String :=
  [d.type, d.mac, d.vendor, d.name, d.first_seen, d.last_seen, d.channel,
    toString d.packets, commaToSemi d.comment, toString d.latitude,
    toString d.longitude, String.intercalate ";" d.sources]

/-- Wrap one CSV field in double quotes, doubling embedded quotes. -/
def csvQuote (s : String) : String := "\"" ++ String.mk (escQuotes s.toList) ++ "\""

/-- One rendered CSV line. -/
def csvRow (d : DeviceInfo) : String :=
  String.intercalate "," ((csvColumns d).map csvQuote)

/-- The decoded query parameters of one `/devices` request.  The sort column
is kept as `Fin 9` (the source indexes a nine-element key list with it); no
claim concerns out-of-range or malformed sort parameters. -/
structure Params where
  page : Option String
  search : Option String
  field : Option String
  sort : Fin 9
  order : Option String
  download : Option String
  files : Option String

/-- `query.get("download", ["false"])[0].lower() == "true"`. -/
def isDownload (p : Params) : Bool := lowerStr (p.download.getD "false") = "true"

/-- `query.get("order", ["asc"])[0] == "asc"`. -/
def sortAscOf (p : Params) : Bool := p.order.getD "asc" = "asc"

/-- The selected-file list decoded from the `files` parameter. -/
def selectedOf (p : Params) : List String := parseFilesParam p.files

/-- The filtered and sorted record list the handler computes for a request. -/
def filteredDevices (fs : FileSystem) (p : Params) : List DeviceInfo :=
  filter_devices fs (p.search.getD "") (p.field.getD "all") p.sort (sortAscOf p)
    (selectedOf p)

/-- The JSON response body of the paginated branch. -/
structure DevicesResponse where
  devices : List DeviceInfo
  total : Nat
  page : Int
  pages : Nat
  deriving Repr, DecidableEq

/-- Outcome of one `/devices` request: a CSV download (header line followed
by one line per record), a paginated JSON body, or an uncaught exception
(`failure`) that aborts the request. -/
inductive DevicesResult where
  | csv (lines : List String)
  | json (resp : DevicesResponse)
  | failure
  deriving Repr, DecidableEq

/-- Models the `/devices` branch of `CustomHandler.do_GET`: the page
parameter is parsed with `int()` before anything else (a non-numeric value
raises and fails the request); the filtered list is rendered whole as CSV
when downloading, and sliced by page otherwise. -/
def devicesEndpoint (fs : FileSystem) (p : Params) : DevicesResult :=
  match parsePageParam p.page with
  | none => DevicesResult.failure
  | some page =>
    let filtered := filteredDevices fs p
    if isDownload p then
      DevicesResult.csv (csvHeader :: filtered.map csvRow)
    else
      DevicesResult.json
        { devices := pageSlice filtered page
          total := filtered.length
          page := page
          pages := (filtered.length + PAGE_SIZE - 1) / PAGE_SIZE }

/-! ## Concrete fixtures used by witnesses and counterexamples -/

/-- A JSON device entry with every key absent. -/
def emptyEntry : JsonDevice :=
  { base_type := none, macaddr := none, manuf := none, commonname := none,
    base_name := none, last_time := none, first_time := none, channel := none,
    packets_total := none, crypt := none, frequency := none, geopoint := none,
    dot11 := none }

/-- A JSON device entry carrying only a frequency. -/
def freqOnlyEntry : JsonDevice := { emptyEntry with frequency := some 2412000 }

/-- A fully populated device record used as a merge-store inhabitant. -/
def devOldA : DeviceInfo :=
  { type := "Wi-Fi AP", mac := "AA:BB:CC:DD:EE:FF", vendor := "Acme",
    name := "ap-one", last_seen := "2024-01-01 00:00:00",
    first_seen := "2024-01-01 00:00:00", channel := "6", packets := 10,
    longitude := 0, latitude := 0, comment := "WPA2", sources := ["file_a.kismet"] }

/-- The same identifier reported later by a second source file. -/
def devNewB : DeviceInfo :=
  { devOldA with
    last_seen := "2024-01-02 00:00:00"
    packets := 25
    sources := ["file_b.kismet"] }

/-- An SSID map entry whose only content is an out-of-range WPS state. -/
def wpsState3Entry : SsidEntry :=
  { probedssid := none, advertisedssid := none, wps_state := some 3,
    wps_manuf := none, wps_model_name := none }

/-- A JSON device whose `dot11` advertised map holds `wpsState3Entry`. -/
def c7Entry : JsonDevice :=
  { emptyEntry with
    commonname := some "myap"
    frequency := some 2412000
    dot11 := some
      { advertised_ssid_map := some [wpsState3Entry], responded_ssid_map := none,
        probed_ssid_map := none, associated_client_map := none } }

/-- An SSID map entry with WPS state 7 and a manufacturer string. -/
def wpsState7Entry : SsidEntry :=
  { probedssid := none, advertisedssid := none, wps_state := some 7,
    wps_manuf := some "Acme", wps_model_name := none }

/-- A one-file directory whose only file name contains `.json` both in the
middle and as the suffix. -/
def fsDotJson : FileSystem :=
  fun n => if n = "a.json.kismet.json" then some [freqOnlyEntry] else none

/-- An empty directory. -/
def fsEmpty : FileSystem := fun _ => none

/-- A one-file directory for the export fixture. -/
def fsExport : FileSystem :=
  fun n => if n = "scan.kismet.json" then some [freqOnlyEntry] else none

/-- Request parameters with a non-numeric page value. -/
def paramsBadPage : Params :=
  { page := some "abc", search := none, field := none, sort := 0,
    order := none, download := none, files := none }

/-- The same request with the page value `"1"`. -/
def paramsPageOne : Params := { paramsBadPage with page := some "1" }

/-- Export-mode request parameters selecting the export fixture file. -/
def paramsExport : Params :=
  { page := none, search := none, field := none, sort := 0, order := none,
    download := some "true", files := some "[\"scan.kismet.json\"]" }

/-- 250 copies of a record, for exercising negative page slicing. -/
def manyDevices : List DeviceInfo := List.replicate 250 devOldA

/-! ## Helper lemmas -/

theorem strOfData (a b : String) (h : a.data = b.data) : a = b := by
  cases a; cases b; cases h; rfl

theorem strApp_ne_empty (a b : String) (h : a ≠ "") : a ++ b ≠ "" := by
  intro hc
  apply h
  cases a with
  | mk as =>
    cases b with
    | mk bs =>
      have h2 : as ++ bs = ([] : List Char) := congrArg String.data hc
      have h3 : as = [] := (List.append_eq_nil.mp h2).1
      rw [h3]

theorem lowerStr_append (a b : String) : lowerStr (a ++ b) = lowerStr a ++ lowerStr b := by
  apply strOfData
  simp [lowerStr, String.toList, String.data_append]

theorem lowerStr_space : lowerStr " " = " " := rfl

theorem searchableText_eq_claim (d : DeviceInfo) : searchableText d = claimAllText d := by
  simp [searchableText, claimAllText, lowerStr_append, lowerStr_space]

theorem lexLt_irrefl (cs : List Char) : lexLt cs cs = false := by
  induction cs with
  | nil => rfl
  | cons c rest ih => simp [lexLt, ih]

theorem lexLt_asymm (as : List Char) : ∀ bs, lexLt as bs = true → lexLt bs as = false := by
  induction as with
  | nil =>
    intro bs h
    cases bs with
    | nil => simp [lexLt] at h
    | cons b bs2 => simp [lexLt]
  | cons a as2 ih =>
    intro bs h
    cases bs with
    | nil => simp [lexLt] at h
    | cons b bs2 =>
      simp only [lexLt] at h ⊢
      by_cases h1 : a.toNat < b.toNat
      · have hba : ¬ b.toNat < a.toNat := by omega
        rw [if_neg hba, if_pos h1]
      · by_cases h2 : b.toNat < a.toNat
        · rw [if_neg h1, if_pos h2] at h
          exact absurd h (by simp)
        · rw [if_neg h1, if_neg h2] at h
          rw [if_neg h2, if_neg h1]
          exact ih bs2 h

theorem dictLookup_set_self (s : List (String × DeviceInfo)) (k : String) (v : DeviceInfo) :
    dictLookup (dictSet s k v) k = some v := by
  induction s with
  | nil => simp [dictSet, dictLookup]
  | cons kv rest ih =>
    obtain ⟨k2, v2⟩ := kv
    by_cases h : k2 = k
    · simp [dictSet, dictLookup, h]
    · simp [dictSet, dictLookup, h, ih]

theorem dictLookup_set_ne (s : List (String × DeviceInfo)) (k k2 : String) (v : DeviceInfo)
    (h : k ≠ k2) : dictLookup (dictSet s k v) k2 = dictLookup s k2 := by
  induction s with
  | nil => simp [dictSet, dictLookup, h]
  | cons kv rest ih =>
    obtain ⟨k3, v3⟩ := kv
    by_cases h2 : k3 = k
    · subst h2
      simp [dictSet, dictLookup, h]
    · by_cases h3 : k3 = k2
      · simp [dictSet, dictLookup, h2, h3, Ne.symm h]
      · simp [dictSet, dictLookup, h2, h3, ih]

theorem mem_insSorted (lt : DeviceInfo → DeviceInfo → Bool) (x d : DeviceInfo)
    (l : List DeviceInfo) : d ∈ insSorted lt x l ↔ d = x ∨ d ∈ l := by
  induction l with
  | nil => simp [insSorted]
  | cons y ys ih =>
    simp only [insSorted]
    by_cases h : lt y x = true
    · rw [if_pos h]
      simp only [List.mem_cons, ih]
      tauto
    · rw [if_neg h]
      simp only [List.mem_cons]

theorem mem_stableSort (lt : DeviceInfo → DeviceInfo → Bool) (d : DeviceInfo) :
    ∀ l : List DeviceInfo, d ∈ stableSort lt l ↔ d ∈ l := by
  intro l
  induction l with
  | nil => simp [stableSort]
  | cons x xs ih => simp [stableSort, mem_insSorted, ih]

theorem mem_applySearch_sub (q fl : String) (d : DeviceInfo) (l : List DeviceInfo)
    (h : d ∈ applySearch q fl l) : d ∈ l := by
  rw [applySearch] at h
  by_cases hq : q = ""
  · rw [if_pos hq] at h
    exact h
  · rw [if_neg hq] at h
    exact (List.mem_filter.mp h).1

theorem loadSelected_sources (fs : FileSystem) (d : DeviceInfo) :
    ∀ sel : List String, d ∈ loadSelected fs sel →
      ∃ src ∈ sel, d.sources = [pyRemoveJson src] := by
  intro sel
  induction sel with
  | nil => simp [loadSelected]
  | cons f rest ih =>
    intro h
    rw [loadSelected] at h
    rcases List.mem_append.mp h with h1 | h2
    · cases hf : fs f with
      | none =>
        rw [hf] at h1
        simp at h1
      | some entries =>
        rw [hf] at h1
        rcases List.mem_map.mp h1 with ⟨e, _, rfl⟩
        exact ⟨f, by simp, rfl⟩
    · rcases ih h2 with ⟨src, hs, hd⟩
      exact ⟨src, by simp [hs], hd⟩

theorem escQuotes_append (a b : List Char) :
    escQuotes (a ++ b) = escQuotes a ++ escQuotes b := by
  induction a with
  | nil => rfl
  | cons c rest ih => by_cases h : c = '"' <;> simp [escQuotes, h, ih]

theorem escQuotes_no_quote (cs : List Char) (h : '"' ∉ cs) : escQuotes cs = cs := by
  induction cs with
  | nil => rfl
  | cons c rest ih =>
    rw [List.mem_cons, not_or] at h
    rw [escQuotes, if_neg (fun hc => h.1 hc.symm), ih h.2]

theorem commaToSemi_no_comma (s : String) : ',' ∉ (commaToSemi s).toList := by
  intro h
  have h2 : ',' ∈ s.toList.map (fun c => if c = ',' then ';' else c) := h
  rcases List.mem_map.mp h2 with ⟨c, _, hc⟩
  by_cases h3 : c = ',' <;> simp [h3] at hc

theorem csvQuote_toList (s : String) :
    (csvQuote s).toList = '"' :: escQuotes s.toList ++ ['"'] := by
  simp [csvQuote, String.toList, String.data_append]

theorem pageSlice_zero (l : List DeviceInfo) : pageSlice l 0 = [] := by
  have harg : ((0 : Int) - 1) * (PAGE_SIZE : Int) + (PAGE_SIZE : Int) = 0 := by
    norm_num [PAGE_SIZE]
  have he : pySliceResolve l.length (((0 : Int) - 1) * (PAGE_SIZE : Int) + (PAGE_SIZE : Int)) = 0 := by
    rw [harg, pySliceResolve]
    simp
  rw [pageSlice, pySlice, he]
  simp

theorem pageSlice_neg_one (l : List DeviceInfo) (h : 200 ≤ l.length) :
    pageSlice l (-1) = (l.drop (l.length - 200)).take 100 ∧ pageSlice l (-1) ≠ [] := by
  have harg1 : ((-1 : Int) - 1) * (PAGE_SIZE : Int) = -200 := by norm_num [PAGE_SIZE]
  have harg2 : ((-1 : Int) - 1) * (PAGE_SIZE : Int) + (PAGE_SIZE : Int) = -100 := by
    norm_num [PAGE_SIZE]
  have hs : pySliceResolve l.length (((-1 : Int) - 1) * (PAGE_SIZE : Int)) = l.length - 200 := by
    rw [harg1, pySliceResolve, if_pos (by norm_num)]
    omega
  have he : pySliceResolve l.length (((-1 : Int) - 1) * (PAGE_SIZE : Int) + (PAGE_SIZE : Int)) =
      l.length - 100 := by
    rw [harg2, pySliceResolve, if_pos (by norm_num)]
    omega
  have hlen : l.length - 100 - (l.length - 200) = 100 := by omega
  constructor
  · rw [pageSlice, pySlice, hs, he, hlen]
  · rw [pageSlice, pySlice, hs, he, hlen]
    intro hc
    have h2 := congrArg List.length hc
    simp [List.length_take, List.length_drop] at h2
    omega

/-! ## Claim theorems -/

/-- C1 (code bug): merging an incoming record with a strictly later
`last_seen` for an already-stored MAC does NOT keep the union of the old and
new source-file sets: `dict.update(device)` overwrites the `sources` key with
the incoming record's list, so after merging `file_a.kismet` (stored) with
`file_b.kismet` (incoming, later), the stored sources are `["file_b.kismet"]`
alone, against the claimed union. -/
theorem merge_overwrites_sources :
    dictLookup (mergeDevice "file_b.kismet"
        (dictSet [] "AA:BB:CC:DD:EE:FF" devOldA) devNewB) "AA:BB:CC:DD:EE:FF" =
      some { devNewB with sources := ["file_b.kismet"] } := by
  decide

/-- C2: an incoming record for a stored MAC is merged only when its
`last_seen` is strictly greater; otherwise the store is unchanged.  After any
merge the stored `last_seen` is `max(old, new)` in the Python string order,
and `last_seen` never decreases for any stored identifier. -/
theorem merge_lastSeen_monotone (store : List (String × DeviceInfo))
    (filename : String) (device old : DeviceInfo)
    (h : dictLookup store device.mac = some old) :
    (lexLt old.last_seen.toList device.last_seen.toList = false →
      mergeDevice filename store device = store) ∧
    (∀ nw, dictLookup (mergeDevice filename store device) device.mac = some nw →
      nw.last_seen = maxStr old.last_seen device.last_seen) ∧
    (∀ mac o nw, dictLookup store mac = some o →
      dictLookup (mergeDevice filename store device) mac = some nw →
      lexLt nw.last_seen.toList o.last_seen.toList = false) := by
  have hm : mergeDevice filename store device =
      if lexLt old.last_seen.toList device.last_seen.toList then
        dictSet store device.mac { device with sources := device.sources.dedup }
      else store := by
    simp only [mergeDevice, h]
  refine ⟨?_, ?_, ?_⟩
  · intro hlt
    rw [hm, if_neg (by simp only [hlt]; simp)]
  · intro nw hnw
    by_cases hlt : lexLt old.last_seen.toList device.last_seen.toList = true
    · rw [hm, if_pos hlt, dictLookup_set_self] at hnw
      injection hnw with h2
      subst h2
      rw [maxStr, if_pos hlt]
    · rw [hm, if_neg hlt, h] at hnw
      injection hnw with h2
      subst h2
      rw [maxStr, if_neg hlt]
  · intro mac o nw ho hnw
    by_cases hmac : mac = device.mac
    · subst hmac
      rw [h] at ho
      injection ho with ho2
      subst ho2
      by_cases hlt : lexLt old.last_seen.toList device.last_seen.toList = true
      · rw [hm, if_pos hlt, dictLookup_set_self] at hnw
        injection hnw with h2
        subst h2
        exact lexLt_asymm _ _ hlt
      · rw [hm, if_neg hlt, h] at hnw
        injection hnw with h2
        subst h2
        exact lexLt_irrefl _
    · by_cases hlt : lexLt old.last_seen.toList device.last_seen.toList = true
      · rw [hm, if_pos hlt, dictLookup_set_ne _ _ _ _ (fun hh => hmac hh.symm), ho] at hnw
        injection hnw with h2
        subst h2
        exact lexLt_irrefl _
      · rw [hm, if_neg hlt, ho] at hnw
        injection hnw with h2
        subst h2
        exact lexLt_irrefl _

/-- Witness for C2 at a concrete store: `devOldA` stored, `devNewB` incoming
with a strictly later `last_seen`. -/
theorem merge_lastSeen_monotone_witness :
    (lexLt devOldA.last_seen.toList devNewB.last_seen.toList = false →
      mergeDevice "file_b.kismet" (dictSet [] "AA:BB:CC:DD:EE:FF" devOldA) devNewB =
        dictSet [] "AA:BB:CC:DD:EE:FF" devOldA) ∧
    (∀ nw, dictLookup (mergeDevice "file_b.kismet"
        (dictSet [] "AA:BB:CC:DD:EE:FF" devOldA) devNewB) devNewB.mac = some nw →
      nw.last_seen = maxStr devOldA.last_seen devNewB.last_seen) ∧
    (∀ mac o nw, dictLookup (dictSet [] "AA:BB:CC:DD:EE:FF" devOldA) mac = some o →
      dictLookup (mergeDevice "file_b.kismet"
        (dictSet [] "AA:BB:CC:DD:EE:FF" devOldA) devNewB) mac = some nw →
      lexLt nw.last_seen.toList o.last_seen.toList = false) :=
  merge_lastSeen_monotone (dictSet [] "AA:BB:CC:DD:EE:FF" devOldA)
    "file_b.kismet" devNewB devOldA (by decide)

/-- C3 (code bug): the parser does not default every absent field.  A missing
`kismet.device.base.frequency` makes `device.get(...)` return `None`, the
`None / 1000` in the comment raises `TypeError`, and the whole file's parse
returns no records at all — here the fully-absent first entry also discards
the parseable second entry.  When the frequency is present, every other
absent field does default as claimed. -/
theorem parse_missing_frequency_aborts :
    parse_json_file "scan_a.kismet" [emptyEntry, freqOnlyEntry] = [] ∧
    parse_json_file "scan_a.kismet" [freqOnlyEntry] =
      [{ type := "Unknown", mac := "Unknown", vendor := "Unknown",
         name := "Unknown", last_seen := fmtTime 0, first_seen := fmtTime 0,
         channel := "Unknown", packets := 0, longitude := 0, latitude := 0,
         comment := "" ++ " freq: " ++ strFreqDiv1000 2412000,
         sources := ["scan_a.kismet"] }] := by
  constructor
  · rfl
  · rfl

/-- C4: with field `all`, a nonempty query retains a record iff its
lower-cased form occurs in the space-joined lower-cased concatenation of
type, MAC, vendor, name, channel and comment; with a named field, iff it
occurs in that field's lower-cased string form; an empty query retains every
record. -/
theorem filter_retains_iff (q fl : String) (d : DeviceInfo) (ds : List DeviceInfo) :
    (applySearch "" fl ds = ds) ∧
    (q ≠ "" → (d ∈ applySearch q "all" ds ↔
      d ∈ ds ∧ pyIn (lowerStr q) (claimAllText d) = true)) ∧
    (q ≠ "" → fl ≠ "all" → (d ∈ applySearch q fl ds ↔
      d ∈ ds ∧ pyIn (lowerStr q) (lowerStr (pyFieldStr d fl)) = true)) := by
  refine ⟨?_, ?_, ?_⟩
  · rw [applySearch, if_pos rfl]
  · intro hq
    rw [applySearch, if_neg hq]
    simp [List.mem_filter, searchableText_eq_claim]
  · intro hq hf
    rw [applySearch, if_neg hq]
    simp [List.mem_filter, hf]

/-- Witness for C4: searching `ap` in the `type` field of a one-record list. -/
theorem filter_retains_iff_witness :
    devOldA ∈ applySearch "ap" "type" [devOldA] ↔
      devOldA ∈ [devOldA] ∧ pyIn (lowerStr "ap") (lowerStr (pyFieldStr devOldA "type")) = true :=
  (filter_retains_iff "ap" "type" devOldA [devOldA]).2.2 (by decide) (by decide)

/-- C5 counterexample: a non-numeric `page` parameter does not behave as page
1 — the uncaught `int()` error fails the request, while the same request with
page `"1"` succeeds. -/
theorem invalid_page_fails_request :
    devicesEndpoint fsEmpty paramsBadPage = DevicesResult.failure ∧
    devicesEndpoint fsEmpty paramsPageOne =
      DevicesResult.json { devices := [], total := 0, page := 1, pages := 0 } := by
  constructor
  · rfl
  · rfl

/-- C5 amended: an invalid-JSON `files` parameter is caught and defaults to
the empty selection, and a missing `page` parameter defaults to page 1, but a
non-numeric `page` parameter raises an uncaught `ValueError` and fails the
request instead of defaulting. -/
theorem query_input_defaults (fs : FileSystem) (p : Params) (s : String) :
    (jsonLoadsList (p.files.getD "[]") = none → selectedOf p = []) ∧
    (p.page = none → parsePageParam p.page = some 1) ∧
    (p.page = some s → pyInt s = none →
      devicesEndpoint fs p = DevicesResult.failure) := by
  refine ⟨?_, ?_, ?_⟩
  · intro h
    simp [selectedOf, parseFilesParam, h]
  · intro h
    rw [h]
    rfl
  · intro hp hi
    rw [devicesEndpoint, parsePageParam, hp]
    simp [hi]

/-- Witness for C5 (amended) at the concrete bad-page request. -/
theorem query_input_defaults_witness :
    devicesEndpoint fsEmpty paramsBadPage = DevicesResult.failure :=
  (query_input_defaults fsEmpty paramsBadPage "abc").2.2 rfl (by decide)

/-- C8: an empty selected-file set short-circuits `filter_devices` to the
empty list, so every page of the response is empty and the reported total is
0, whatever the query text. -/
theorem empty_selection_empty_result (fs : FileSystem) (q fl : String)
    (sc : Fin 9) (asc : Bool) (page : Int) :
    filter_devices fs q fl sc asc [] = [] ∧
    pageSlice (filter_devices fs q fl sc asc []) page = [] ∧
    (filter_devices fs q fl sc asc []).length = 0 := by
  have h : filter_devices fs q fl sc asc [] = [] := by
    rw [filter_devices, if_pos rfl]
  refine ⟨h, ?_, ?_⟩
  · rw [h, pageSlice, pySlice]
    simp
  · rw [h]
    rfl

/-- C10: page 0 always yields the empty slice, while a negative page is not
rejected: with at least 200 filtered records, page -1 slices the records at
positions N-200 through N-101 — a non-empty list taken from the tail. -/
theorem pagination_negative_page :
    (∀ l : List DeviceInfo, pageSlice l 0 = []) ∧
    (∀ l : List DeviceInfo, 200 ≤ l.length →
      pageSlice l (-1) = (l.drop (l.length - 200)).take 100 ∧ pageSlice l (-1) ≠ []) :=
  ⟨pageSlice_zero, fun l h => pageSlice_neg_one l h⟩

/-- Witness for C10 on a concrete 250-record list. -/
theorem pagination_negative_page_witness :
    pageSlice manyDevices (-1) =
      (manyDevices.drop (manyDevices.length - 200)).take 100 ∧
    pageSlice manyDevices (-1) ≠ [] :=
  pagination_negative_page.2 manyDevices
    (by rw [manyDevices, List.length_replicate]; norm_num)

/-- Evaluation of `parse_ssid_maps` on a single-entry map carrying only WPS
keys: the comment is extended by the branch the WPS state selects. -/
theorem parse_ssid_maps_single (cn : Option String) (c : String) (x : SsidEntry)
    (hp : x.probedssid = none) (ha : x.advertisedssid = none) :
    parse_ssid_maps cn c (some [x]) =
      Except.ok (match x.wps_state with
        | some st =>
          if st = 1 ∨ st = 2 then wpsFinish c "enabled" x
          else if st = 0 then c
          else wpsFinish c ("unkn (" ++ toString st ++ ")") x
        | none => wpsFinish c "" x) := by
  obtain ⟨xp, xa, xs, xm, xmo⟩ := x
  dsimp only at hp ha
  subst hp
  subst ha
  cases xs with
  | none => rfl
  | some v =>
    by_cases h12 : v = 1 ∨ v = 2
    · simp [parse_ssid_maps, ssidEntryStep, List.foldlM, h12]
      rfl
    · by_cases h0 : v = 0
      · simp [parse_ssid_maps, ssidEntryStep, List.foldlM, h12, h0]
        rfl
      · simp [parse_ssid_maps, ssidEntryStep, List.foldlM, h12, h0]
        rfl

/-- C7 (amended): for an SSID map entry carrying a WPS state, state 1 or 2
renders as `enabled`, state 0 omits the WPS annotation entirely (the loop
`continue` also skips manufacturer/model), and any other state `v` renders as
`unkn (<v>)` — not `unknown (<v>)`; manufacturer and model strings are
appended when present. -/
theorem wps_state_rendering (cn : Option String) (c : String) (x : SsidEntry) (v : Int)
    (hp : x.probedssid = none) (ha : x.advertisedssid = none) (hs : x.wps_state = some v) :
    ((v = 1 ∨ v = 2) →
      parse_ssid_maps cn c (some [x]) = Except.ok (c ++ " WPS: enabled" ++ wpsTail x)) ∧
    (v = 0 → parse_ssid_maps cn c (some [x]) = Except.ok c) ∧
    (v ≠ 0 → v ≠ 1 → v ≠ 2 →
      parse_ssid_maps cn c (some [x]) =
        Except.ok (c ++ " WPS: unkn (" ++ toString v ++ ")" ++ wpsTail x)) := by
  rw [parse_ssid_maps_single cn c x hp ha, hs]
  dsimp only
  refine ⟨?_, ?_, ?_⟩
  · intro h12
    rw [if_pos h12]
    congr 1
    simp only [wpsFinish]
    rw [if_pos (strApp_ne_empty "enabled" (wpsTail x) (by decide))]
    rw [show (" WPS: enabled" : String) = " WPS: " ++ "enabled" from rfl]
    simp only [String.append_assoc]
  · intro h0
    subst h0
    norm_num
  · intro h0 h1 h2
    rw [if_neg (by simp [h1, h2]), if_neg h0]
    congr 1
    simp only [wpsFinish]
    rw [if_pos (strApp_ne_empty ("unkn (" ++ toString v ++ ")") (wpsTail x)
      (strApp_ne_empty "unkn (" (toString v ++ ")") (by decide)))]
    rw [show (" WPS: unkn (" : String) = " WPS: " ++ "unkn (" from rfl]
    simp only [String.append_assoc]

/-- Witness for C7 (amended) at WPS state 7 with a manufacturer string. -/
theorem wps_state_rendering_witness :
    parse_ssid_maps (some "ap") "x" (some [wpsState7Entry]) =
      Except.ok ("x" ++ " WPS: unkn (" ++ toString (7 : Int) ++ ")" ++ wpsTail wpsState7Entry) :=
  (wps_state_rendering (some "ap") "x" wpsState7Entry 7 rfl rfl rfl).2.2
    (by decide) (by decide) (by decide)

/-- C7 counterexample: a WPS state of 3 renders as `unkn (3)` in the derived
comment; the claimed spelling `unknown (3)` never occurs in it. -/
theorem wps_unknown_spelling_cex :
    (parse_json_file "scan.kismet" [c7Entry]).map
      (fun d => (pyIn "unkn (3)" d.comment, pyIn "unknown (3)" d.comment)) =
      [(true, false)] := by
  decide

/-- C9 (amended): every record the query path returns carries exactly one
source tag — the selected file's name with every occurrence of `.json`
removed (not only a trailing suffix) — because the records are rebuilt from
the selected files and the merge store is never consulted. -/
theorem query_sources_singleton (fs : FileSystem) (q fl : String) (sc : Fin 9)
    (asc : Bool) (sel : List String) (d : DeviceInfo)
    (h : d ∈ filter_devices fs q fl sc asc sel) :
    ∃ src ∈ sel, d.sources = [pyRemoveJson src] := by
  rw [filter_devices] at h
  by_cases hsel : sel = []
  · rw [if_pos hsel] at h
    simp at h
  · rw [if_neg hsel, sortDevices] at h
    have h2 := (mem_stableSort _ _ _).mp h
    have h3 := mem_applySearch_sub _ _ _ _ h2
    exact loadSelected_sources fs d sel h3

/-- Witness for C9 (amended) on a concrete one-file query. -/
theorem query_sources_singleton_witness :
    ∃ src ∈ ["a.json.kismet.json"],
      (deviceFromFile "a.json.kismet.json" freqOnlyEntry).sources = [pyRemoveJson src] :=
  query_sources_singleton fsDotJson "" "all" 0 true ["a.json.kismet.json"]
    (deviceFromFile "a.json.kismet.json" freqOnlyEntry) (by decide)

/-- C9 counterexample: for the selected file `a.json.kismet.json` the
returned source tag is `a.kismet` — `replace(".json", "")` removed the inner
occurrence too — while removing only the suffix would give `a.json.kismet`. -/
theorem query_sources_not_suffix_cex :
    (filter_devices fsDotJson "" "all" 0 true ["a.json.kismet.json"]).map
        DeviceInfo.sources = [["a.kismet"]] ∧
    stripJsonSuffix "a.json.kismet.json" = "a.json.kismet" ∧
    ("a.kismet" : String) ≠ "a.json.kismet" := by
  refine ⟨by decide, by decide, by decide⟩

/-- C6: export mode renders the whole filtered and sorted list — a header
line then one CSV line per record, unaffected by the page parameter — in the
fixed column order; every field is wrapped in double quotes with embedded
quotes doubled, and commas inside the comment field are replaced by
semicolons before quoting. -/
theorem export_renders_all_rows (fs : FileSystem) (p : Params) (page : Int)
    (hd : isDownload p = true) (hp : parsePageParam p.page = some page) :
    devicesEndpoint fs p =
      DevicesResult.csv (csvHeader :: (filteredDevices fs p).map csvRow) ∧
    (∀ q2 : Option String, ∀ page2 : Int, parsePageParam q2 = some page2 →
      devicesEndpoint fs { p with page := q2 } = devicesEndpoint fs p) ∧
    (∀ d : DeviceInfo, csvRow d = String.intercalate "," ((csvColumns d).map csvQuote)) ∧
    (∀ s : String, (csvQuote s).toList = '"' :: escQuotes s.toList ++ ['"']) ∧
    (∀ cs : List Char, '"' ∉ cs → escQuotes cs = cs) ∧
    (∀ a b : List Char, escQuotes (a ++ '"' :: b) =
      escQuotes a ++ '"' :: '"' :: escQuotes b) ∧
    (∀ s : String, ',' ∉ (commaToSemi s).toList) := by
  obtain ⟨pg, se, fld, srt, ord, dl, fil⟩ := p
  refine ⟨?_, ?_, ?_, ?_, ?_, ?_, ?_⟩
  · simp only [devicesEndpoint, hp]
    rw [if_pos hd]
  · intro q2 page2 h2
    have hd2 : isDownload
        { page := q2, search := se, field := fld, sort := srt, order := ord,
          download := dl, files := fil } = true := hd
    simp only [devicesEndpoint, hp, h2]
    rw [if_pos hd2, if_pos hd]
    rfl
  · intro d
    rfl
  · exact csvQuote_toList
  · exact escQuotes_no_quote
  · intro a b
    rw [escQuotes_append]
    simp [escQuotes]
  · exact commaToSemi_no_comma

/-- Witness for C6: a concrete export request, and the scenario field — a
comment holding a comma and a quote — rendered with the comma neutralized
and the quote doubled. -/
theorem export_renders_all_rows_witness :
    devicesEndpoint fsExport paramsExport =
      DevicesResult.csv (csvHeader :: (filteredDevices fsExport paramsExport).map csvRow) ∧
    csvQuote (commaToSemi "wpa,x\"y") = "\"wpa;x\"\"y\"" := by
  constructor
  · exact (export_renders_all_rows fsExport paramsExport 1 (by decide) (by decide)).1
  · decide
